import Mathlib

/-!
Verification of the lab job agent's execution engine (`agent.py`).

The development shallowly embeds the engine's pure logic:
* JSON-ish scalar values and the `format_args` argument formatter,
  including a faithful model of POSIX `shlex.split` tokenization;
* the `ensure_allowed_script` sandbox resolver over an abstract
  filesystem (canonical resolution and existence are parameters,
  since they are ambient filesystem behaviour);
* `get_tail` log-tail extraction;
* `run_job`'s control flow, with external effects (queue updates,
  notification emails, file writes, the spawned process) recorded in
  an explicit trace;
* the dual-column retry loops of `update_job` / `update_session`;
* the top-level `main` stage sequencing; and
* Jupyter session port/token allocation.
-/

/-! ## Python scalar values and `str()` rendering -/

/-- A JSON-ish scalar as it may appear in a job's `args` payload. -/
inductive JVal where
  | jnull
  | jbool (b : Bool)
  | jint (n : Int)
  | jstr (s : String)
deriving DecidableEq

/-- Python `str()` of a scalar. -/
def pyStr : JVal → String
  | .jnull => "None"
  | .jbool true => "True"
  | .jbool false => "False"
  | .jint n => toString n
  | .jstr s => s

/-- The shapes the untyped `args` payload can take (`job.get("args")`).
`rnone` is an absent/null payload; `rother` is any other scalar. -/
inductive RawArgs where
  | rnone
  | rlist (xs : List JVal)
  | rdict (es : List (String × JVal))
  | rstr (s : String)
  | rother (v : JVal)
deriving DecidableEq

/-! ## `shlex.split` (POSIX mode, whitespace_split) -/

/-- Lexer state of the `shlex` tokenizer: between tokens, inside a word,
inside single/double quotes, or just after a backslash (from word or
double-quote context). -/
inductive ShState where
  | ws | word | sq | dq | escW | escD
deriving DecidableEq

/-- The whitespace characters `shlex` splits on. -/
def isShWS (c : Char) : Bool := c == ' ' || c == '\t' || c == '\r' || c == '\n'

/-- One-character-at-a-time simulation of `shlex.read_token` in POSIX
mode with whitespace splitting.  `quoted` tracks whether the current
token saw a quote (so an empty quoted token is still emitted); `none`
models the `ValueError` raised on an unterminated quote or escape. -/
def shlexGo : List Char → ShState → Bool → List Char → List (List Char) →
    Option (List (List Char))
  | [], st, quoted, tok, acc =>
    match st with
    | .sq | .dq | .escW | .escD => none
    | _ => some (if tok ≠ [] ∨ quoted then acc ++ [tok] else acc)
  | c :: cs, .ws, quoted, tok, acc =>
    if isShWS c then shlexGo cs .ws false [] acc
    else if c == '\'' then shlexGo cs .sq true tok acc
    else if c == '"' then shlexGo cs .dq true tok acc
    else if c == '\\' then shlexGo cs .escW quoted tok acc
    else shlexGo cs .word quoted (tok ++ [c]) acc
  | c :: cs, .word, quoted, tok, acc =>
    if isShWS c then
      shlexGo cs .ws false [] (if tok ≠ [] ∨ quoted then acc ++ [tok] else acc)
    else if c == '\'' then shlexGo cs .sq true tok acc
    else if c == '"' then shlexGo cs .dq true tok acc
    else if c == '\\' then shlexGo cs .escW quoted tok acc
    else shlexGo cs .word quoted (tok ++ [c]) acc
  | c :: cs, .sq, quoted, tok, acc =>
    if c == '\'' then shlexGo cs .word quoted tok acc
    else shlexGo cs .sq quoted (tok ++ [c]) acc
  | c :: cs, .dq, quoted, tok, acc =>
    if c == '"' then shlexGo cs .word quoted tok acc
    else if c == '\\' then shlexGo cs .escD quoted tok acc
    else shlexGo cs .dq quoted (tok ++ [c]) acc
  | c :: cs, .escW, quoted, tok, acc => shlexGo cs .word quoted (tok ++ [c]) acc
  | c :: cs, .escD, quoted, tok, acc =>
    if c == '\\' || c == '"' then shlexGo cs .dq quoted (tok ++ [c]) acc
    else shlexGo cs .dq quoted (tok ++ ['\\', c]) acc

/-- `shlex.split(s)`; `none` models the `ValueError` on malformed input. -/
def shlexSplit (s : String) : Option (List String) :=
  (shlexGo s.toList .ws false [] []).map (fun ts => ts.map (fun t => String.mk t))

/-! ## `format_args` -/

/-- The strings a single dict entry's value contributes after its flag:
nothing for `None`, the `str()` rendering otherwise. -/
def dictVal : JVal → List String
  | .jnull => []
  | v => [pyStr v]

/-- `format_args(raw_args)`.  `none` models the uncaught tokenizer
exception on a malformed string payload. -/
def format_args : RawArgs → Option (List String)
  | .rnone => some []
  | .rlist xs => some (xs.map pyStr)
  | .rdict es => some (es.flatMap (fun kv => ("--" ++ kv.1) :: dictVal kv.2))
  | .rstr s => shlexSplit s
  | .rother v => some [pyStr v]

/-! ## Paths and the abstract filesystem -/

/-- A canonical absolute path, as its list of components below the
filesystem root (`/home/u/a.py` is `["home", "u", "a.py"]`). -/
structure AbsPath where
  parts : List String
deriving DecidableEq

/-- A nominal (possibly relative) path as `pathlib.Path` parses it. -/
structure PPath where
  absolute : Bool
  parts : List String
deriving DecidableEq

/-- Whether a POSIX path string is absolute (starts with `/`). -/
def pyIsAbsolute (s : String) : Bool :=
  match s.toList with
  | c :: _ => c == '/'
  | [] => false

/-- Split a character list at every occurrence of a separator
(`str.split(sep)` semantics: empty segments are kept). -/
def splitChar (sep : Char) : List Char → List (List Char)
  | [] => [[]]
  | c :: cs =>
    let r := splitChar sep cs
    if c == sep then [] :: r
    else
      match r with
      | ts :: rest => (c :: ts) :: rest
      | [] => [[c]]

/-- `s.split("/")` as strings. -/
def splitOnSlash (s : String) : List String :=
  (splitChar '/' s.toList).map (fun l => String.mk l)

/-- `Path(s)`: absolute iff it starts with `/`; components drop empty
segments and `.` (as `pathlib` normalization does), keeping `..`. -/
def parsePath (s : String) : PPath :=
  ⟨pyIsAbsolute s, (splitOnSlash s).filter (fun c => c != "" && c != ".")⟩

/-- The ambient filesystem: `resolve rel` is the canonical result of
`(HOME / rel).resolve()` (following symlinks and `..`), and `fexists`
is `Path.exists`.  Both are parameters because they are decided by the
host filesystem, not by the program. -/
structure FS where
  resolve : List String → AbsPath
  fexists : AbsPath → Bool

/-- Final path component (`Path.name`, `""` for the root). -/
def lastPart (p : AbsPath) : String := p.parts.getLastD ""

/-- `pathlib`'s `suffix`: the final extension of the name, empty when
the name has no interior dot. -/
def pySuffix (name : String) : String :=
  let cs := name.toList
  match cs.reverse.findIdx? (fun c => c == '.') with
  | none => ""
  | some j =>
    let i := cs.length - 1 - j
    if 0 < i ∧ i < cs.length - 1 then String.mk (cs.drop i) else ""

/-- Python `str.lstrip(".")`. -/
def lstripDots (s : String) : String := String.mk (s.toList.dropWhile (fun c => c == '.'))

/-- Render an absolute path back to a string (`str(path)`). -/
def pathStr (p : AbsPath) : String := "/" ++ String.intercalate "/" p.parts

/-- `ALLOWED_SUFFIXES`. -/
def ALLOWED_SUFFIXES : List String := [".py", ".ipynb"]

/-- `SKIP_DIRS`. -/
def SKIP_DIRS : List String := [".venv", ".cache", ".local", "anaconda3", "__pycache__", ".git"]

/-- `should_skip(path)`: some component is in the skip set. -/
def should_skip (p : AbsPath) : Bool := p.parts.any (fun part => SKIP_DIRS.contains part)

/-! ## `ensure_allowed_script` (the Sandbox Resolver) -/

/-- `(HOME / path).resolve()` for the nominal script path. -/
def resolvedOf (fs : FS) (scriptPath : String) : AbsPath :=
  fs.resolve (parsePath scriptPath).parts

/-- Rejection condition 1: the nominal path is absolute. -/
def condAbsolute (scriptPath : String) : Bool := (parsePath scriptPath).absolute

/-- Rejection condition 2: the canonical resolution escapes the home
root (`relative_to` raises). -/
def condEscapes (home : AbsPath) (fs : FS) (scriptPath : String) : Bool :=
  !(home.parts.isPrefixOf (resolvedOf fs scriptPath).parts)

/-- Rejection condition 3: the resolved extension is not allowed. -/
def condBadSuffix (fs : FS) (scriptPath : String) : Bool :=
  !(ALLOWED_SUFFIXES.contains (pySuffix (lastPart (resolvedOf fs scriptPath))))

/-- Rejection condition 4: a non-empty expected type differs from the
extension stripped of its leading dot. -/
def condTypeMismatch (fs : FS) (scriptPath expectedType : String) : Bool :=
  expectedType != "" && lstripDots (pySuffix (lastPart (resolvedOf fs scriptPath))) != expectedType

/-- Rejection condition 5: the resolved file does not exist. -/
def condMissing (fs : FS) (scriptPath : String) : Bool :=
  !(fs.fexists (resolvedOf fs scriptPath))

/-- Rejection condition 6: a component of the resolved path is in the
skip set. -/
def condSkipped (fs : FS) (scriptPath : String) : Bool :=
  should_skip (resolvedOf fs scriptPath)

/-- `ensure_allowed_script(script_path, expected_type)`: the checks in
source order, each with its distinct error message. -/
def ensure_allowed_script (home : AbsPath) (fs : FS) (scriptPath expectedType : String) :
    Except String AbsPath :=
  if condAbsolute scriptPath then
    .error "script_path must be relative to the home directory"
  else if condEscapes home fs scriptPath then
    .error "script_path must stay under the home directory"
  else if condBadSuffix fs scriptPath then
    .error "Only .py or .ipynb scripts are allowed"
  else if condTypeMismatch fs scriptPath expectedType then
    .error ("Script type mismatch: expected " ++ expectedType)
  else if condMissing fs scriptPath then
    .error ("Script not found: " ++ pathStr (resolvedOf fs scriptPath))
  else if condSkipped fs scriptPath then
    .error ("Script is under skipped directory: " ++ pathStr (resolvedOf fs scriptPath))
  else
    .ok (resolvedOf fs scriptPath)

/-! ## `get_tail` -/

/-- `get_tail(path)` with the default `num_lines = 20`.  A file is its
list of lines (`read_text().splitlines()`); `none` input models a path
that does not exist or whose read raised. -/
def get_tail : Option (List String) → Option String
  | none => none
  | some lines =>
    if lines.length ≤ 20 then some (String.intercalate "\n" lines)
    else some (String.intercalate "\n" (lines.drop (lines.length - 20)))

/-! ## Job records and the `run_job` effect trace -/

/-- A row of the `scripts` table (fields may be null). -/
structure Script where
  path : Option String
  stype : Option String
deriving DecidableEq

/-- The fields of a `jobs` row that `run_job` reads.  `none` stands for
a missing key or an explicit null; `hasJobIdKey` is `"job_id" in job`. -/
structure Job where
  hasJobIdKey : Bool
  jobIdVal : Option String
  idVal : Option String
  scriptId : Option String
  argsField : RawArgs
  scriptPathField : Option String
deriving DecidableEq

/-- External outcomes `run_job` observes: the `fetch_script` result,
the spawn outcome (`some retcode` when the child ran to exit, `none`
when `Popen` raised, with `launchErrMsg` the exception text), and what
the child wrote to its two redirected streams. -/
structure RunEnv where
  script : Option Script
  launch : Option Int
  launchErrMsg : String
  childStdout : List String
  childStderr : List String
deriving DecidableEq

/-- An `update_job` payload; `none` is an absent key.  `retcode` and the
tails are doubly optional because their values are themselves nullable. -/
structure Payload where
  pstatus : Option String
  startedAt : Option String
  finishedAt : Option String
  retcode : Option (Option Int)
  stdoutPath : Option String
  stderrPath : Option String
  stdoutTail : Option (Option String)
  stderrTail : Option (Option String)
deriving DecidableEq

/-- A `send_email` notification as the claims observe it. -/
structure EmailMsg where
  estatus : String
  eretcode : Option Int
  errorMessage : Option String
deriving DecidableEq

/-- Everything externally observable about one `run_job` call: queue
updates in order, notifications in order, whether the resolver and the
process runner were reached, the spawned command, whether the
ignored-args warning was written, and the final contents of the two
log files (`none` = file never created). -/
structure Trace where
  updates : List Payload
  emails : List EmailMsg
  ensureInvoked : Bool
  procInvoked : Bool
  cmd : Option (List String)
  ignoredArgsWarned : Bool
  stdoutFile : Option (List String)
  stderrFile : Option (List String)
deriving DecidableEq

/-- Python truthiness of an optional string (`None` and `""` falsy). -/
def truthyStr : Option String → Bool
  | some s => s != ""
  | none => false

/-- Python `a or b` over optional strings. -/
def pyOr (a b : Option String) : Option String := if truthyStr a then a else b

/-- Python `a or d` where the fallback is a plain string. -/
def pyOrD (a : Option String) (d : String) : String :=
  match a with
  | some s => if s != "" then s else d
  | none => d

/-- Python `str(x)` of an optional identifier (`str(None) = "None"`). -/
def idStr : Option String → String
  | some s => s
  | none => "None"

/-- `"done" if retcode == 0 else "error"`. -/
def statusOf (rc : Option Int) : String := if rc = some 0 then "done" else "error"

/-- `fetch_script` is only consulted when a script id was given. -/
def scriptRowOf (env : RunEnv) (job : Job) : Option Script :=
  if job.scriptId.isSome then env.script else none

/-- `(script_row.get("path") if script_row else None) or job.get("script_path") or ""`. -/
def scriptPathOf (env : RunEnv) (job : Job) : String :=
  pyOrD (pyOr ((scriptRowOf env job).bind Script.path) job.scriptPathField) ""

/-- `(script_row.get("type") if script_row else None) or Path(script_path).suffix.lstrip(".")`. -/
def scriptTypeOf (env : RunEnv) (job : Job) : String :=
  pyOrD ((scriptRowOf env job).bind Script.stype)
    (lstripDots (pySuffix ((splitOnSlash (scriptPathOf env job)).getLastD "")))

/-- `build_nbconvert_command(script_full, output_nb)`. -/
def build_nbconvert_command (scriptFull : AbsPath) (outputName outputDir : String) :
    List String :=
  ["jupyter", "nbconvert", "--to", "notebook", "--execute", pathStr scriptFull,
   "--output", outputName, "--output-dir", outputDir]

/-- `{"status": "running", "started_at": now}`. -/
def runningPayload (now : String) : Payload :=
  ⟨some "running", some now, none, none, none, none, none, none⟩

/-- The error payload of the script-not-found branch. -/
def notFoundPayload (now outP errP : String) : Payload :=
  ⟨some "error", none, some now, none, some outP, some errP, none,
   some (some "script not found")⟩

/-- The error payload of the empty-script-path branch. -/
def pathMissingPayload (now outP errP : String) : Payload :=
  ⟨some "error", none, some now, none, some outP, some errP, none,
   some (some "script_path missing")⟩

/-- The error payload of the sandbox-rejection branch (`retcode` is an
explicit null). -/
def valErrPayload (now outP errP msg : String) : Payload :=
  ⟨some "error", none, some now, some none, some outP, some errP, none,
   some (some msg)⟩

/-- The terminal payload written after the spawn attempt. -/
def finalPayload (now outP errP : String) (rc : Option Int) (ot et : Option String) :
    Payload :=
  ⟨some (statusOf rc), none, some now, some rc, some outP, some errP, some ot, some et⟩

/-- The tail of `run_job` once validation succeeded: mark running,
build the command (writing the ignored-args warning for notebook jobs
with arguments), truncate both logs by opening them with mode `w`,
spawn, and finalize. -/
def run_job_exec (now : String) (env : RunEnv) (dir : String) (args : List String)
    (scriptFull : AbsPath) : Trace :=
  let outP := dir ++ "/stdout.log"
  let errP := dir ++ "/stderr.log"
  let isPy := pySuffix (lastPart scriptFull) == ".py"
  let cmd := if isPy then ["python", pathStr scriptFull] ++ args
             else build_nbconvert_command scriptFull "output.ipynb" dir
  let warned := !isPy && args != []
  match env.launch with
  | some rc =>
    let stdoutF := some env.childStdout
    let stderrF := some env.childStderr
    ⟨[runningPayload now,
      finalPayload now outP errP (some rc) (get_tail stdoutF) (get_tail stderrF)],
     [⟨statusOf (some rc), some rc, none⟩],
     true, true, some cmd, warned, stdoutF, stderrF⟩
  | none =>
    let failLine := "Failed to start job: " ++ env.launchErrMsg
    let stdoutF := some ([] : List String)
    let stderrF := some [failLine]
    ⟨[runningPayload now,
      finalPayload now outP errP none (get_tail stdoutF) (get_tail stderrF)],
     [⟨statusOf none, none, none⟩],
     true, true, some cmd, warned, stdoutF, stderrF⟩

/-- `run_job` after `format_args` succeeded: the script-not-found and
empty-path early exits, then sandbox validation, then execution. -/
def run_job_checked (home : AbsPath) (fs : FS) (logRoot now : String) (env : RunEnv)
    (job : Job) (args : List String) : Trace :=
  let jobId := pyOr job.jobIdVal job.idVal
  let dir := logRoot ++ "/" ++ idStr jobId
  let outP := dir ++ "/stdout.log"
  let errP := dir ++ "/stderr.log"
  if job.scriptId.isSome && (scriptRowOf env job).isNone then
    if jobId.isSome then
      ⟨[notFoundPayload now outP errP],
       [⟨"error", none, some "script not found"⟩],
       false, false, none, false, none, some ["script not found"]⟩
    else
      ⟨[], [], false, false, none, false, none, none⟩
  else if scriptPathOf env job == "" then
    ⟨[pathMissingPayload now outP errP],
     [⟨"error", none, some "script_path missing"⟩],
     false, false, none, false, none, some ["script_path is empty"]⟩
  else
    match ensure_allowed_script home fs (scriptPathOf env job) (scriptTypeOf env job) with
    | .error e =>
      ⟨[valErrPayload now outP errP e],
       [⟨"error", none, some e⟩],
       true, false, none, false, none, none⟩
    | .ok scriptFull => run_job_exec now env dir args scriptFull

/-- `run_job(client, config, job, user_id)`.  `none` models the
uncaught exception when `format_args` raises on a malformed string
payload; otherwise the trace of external effects is returned. -/
def run_job (home : AbsPath) (fs : FS) (logRoot now : String) (env : RunEnv)
    (job : Job) : Option Trace :=
  (format_args job.argsField).map (run_job_checked home fs logRoot now env job)

/-! ## Dual-column update retry (`update_job`, `update_session`) -/

/-- The loop body shared by `update_job` and `update_session`: attempt
each candidate column in order, returning at the first success; if the
list is exhausted, re-raise the last exception (silently returning when
no attempt raised).  Returns the attempted columns and the outcome. -/
def tryColumnsAux {E : Type} (outcome : String → Except E Unit) :
    List String → Option E → List String × Except E Unit
  | [], none => ([], .ok ())
  | [], some e => ([], .error e)
  | c :: rest, _lastExc =>
    match outcome c with
    | .ok _ => ([c], .ok ())
    | .error e =>
      let r := tryColumnsAux outcome rest (some e)
      (c :: r.1, r.2)

/-- The candidate columns of `update_job`. -/
def jobColumns (useJobId : Bool) : List String :=
  if useJobId then ["job_id", "id"] else ["id", "job_id"]

/-- The candidate columns of `update_session`. -/
def sessionColumns (useSessionId : Bool) : List String :=
  if useSessionId then ["session_id", "id"] else ["id", "session_id"]

/-- `update_job(client, job_id, payload, use_job_id)`, with `outcome c`
the result of the queue update keyed by column `c`. -/
def update_job {E : Type} (outcome : String → Except E Unit) (useJobId : Bool) :
    List String × Except E Unit :=
  tryColumnsAux outcome (jobColumns useJobId) none

/-- `update_session(client, session_id, payload, use_session_id)`. -/
def update_session {E : Type} (outcome : String → Except E Unit) (useSessionId : Bool) :
    List String × Except E Unit :=
  tryColumnsAux outcome (sessionColumns useSessionId) none

/-! ## Top-level `main` stage sequencing -/

/-- External outcomes of each stage of one `main` invocation: whether
configuration, client construction and user resolution succeed, whether
the inventory sync raises, the job fetch result (`error` = the fetch
raised), whether `run_job` raises, and whether session handling raises. -/
structure MainEnv where
  configOk : Bool
  clientOk : Bool
  userOk : Bool
  syncOk : Bool
  fetchJob : Except Unit (Option Unit)
  runJobOk : Bool
  sessionOk : Bool

/-- What one `main` invocation did: which stages ran, which failures
were swallowed by their local `try`, and the exit code (`none` = the
invocation died on an uncaught exception). -/
structure MainTrace where
  ranSync : Bool
  syncFailureSwallowed : Bool
  ranJobFetch : Bool
  ranJob : Bool
  ranSession : Bool
  sessionFailureSwallowed : Bool
  exitCode : Option Nat
deriving DecidableEq

/-- `main()`: bootstrap aborts return 1; the sync stage swallows its
failures; a job-fetch failure returns 1 immediately; `run_job` is not
wrapped in any handler; the session stage swallows its failures. -/
def main_model (e : MainEnv) : MainTrace :=
  if !e.configOk then ⟨false, false, false, false, false, false, some 1⟩
  else if !e.clientOk then ⟨false, false, false, false, false, false, some 1⟩
  else if !e.userOk then ⟨false, false, false, false, false, false, some 1⟩
  else
    match e.fetchJob with
    | .error _ => ⟨true, !e.syncOk, true, false, false, false, some 1⟩
    | .ok none => ⟨true, !e.syncOk, true, false, true, !e.sessionOk, some 0⟩
    | .ok (some _) =>
      if e.runJobOk then ⟨true, !e.syncOk, true, true, true, !e.sessionOk, some 0⟩
      else ⟨true, !e.syncOk, true, true, false, false, none⟩

/-! ## Session port and token allocation -/

/-- `port = config["jupyter_base_port"] + (os.getuid() % 100)`. -/
def computePort (basePort uid : Nat) : Nat := basePort + uid % 100

/-- The lowercase hex digit of a value below 16: digits map into the
`0`-`9` code range, the rest into `a`-`f`. -/
def hexDigit (n : Nat) : Char := Char.ofNat (if n ≤ 9 then n + 48 else n + 87)

/-- The value of a lowercase hex digit character. -/
def hexVal (c : Char) : Nat := if 97 ≤ c.toNat then c.toNat - 87 else c.toNat - 48

/-- The character stream of `secrets.token_hex`: two hex digits per byte. -/
def tokenHexChars : List Nat → List Char
  | [] => []
  | b :: bs => hexDigit (b / 16) :: hexDigit (b % 16) :: tokenHexChars bs

/-- `secrets.token_hex(nbytes)` applied to the drawn random bytes:
`token_hex(16)` receives sixteen bytes from the OS entropy source. -/
def tokenHex (bytes : List Nat) : String := String.mk (tokenHexChars bytes)

/-- Decode a hex character stream back to bytes (two digits per byte). -/
def hexDecodeChars : List Char → List Nat
  | c1 :: c2 :: rest => (hexVal c1 * 16 + hexVal c2) :: hexDecodeChars rest
  | _ => []

/-! ## Concrete instances used by counterexamples and witnesses -/

/-- A concrete home root `/home/u`. -/
def home0 : AbsPath := ⟨["home", "u"]⟩

/-- A symlink-free filesystem under `home0` in which every path exists. -/
def fs0 : FS := ⟨fun parts => ⟨home0.parts ++ parts⟩, fun _ => true⟩

/-- A plain Python job with id `j1` and inline path `a.py`. -/
def jobPy : Job := ⟨true, some "j1", none, none, .rnone, some "a.py"⟩

/-- The child started and exited 0, printing one stdout line. -/
def envExit0 : RunEnv := ⟨none, some 0, "boom", ["hello"], []⟩

/-- A job referencing script `s1` with no identifier under either field. -/
def jobNoId : Job := ⟨false, none, none, some "s1", .rnone, none⟩

/-- An environment in which `fetch_script` finds nothing. -/
def envNoScript : RunEnv := ⟨none, some 0, "", [], []⟩

/-- A notebook job with non-empty args and inline path `nb.ipynb`. -/
def jobNb : Job := ⟨true, some "j2", none, none, .rlist [.jint 1], some "nb.ipynb"⟩

/-- The notebook child started, exited 0 and wrote nothing to stderr. -/
def envNb : RunEnv := ⟨none, some 0, "", [], []⟩

/-- The spawn attempt itself raised. -/
def envLaunchFail : RunEnv := ⟨none, none, "no such file", [], []⟩

/-! ## C1: the Sandbox Resolver rejects exactly on the six conditions -/

/-- C1.  `ensure_allowed_script` rejects exactly when at least one of
the six conditions holds (absolute path, escape from the home root,
disallowed extension, expected-type mismatch, missing file, skipped
directory), accepts exactly when none holds, and an acceptance always
returns the canonical resolution of the path under the home root. -/
theorem ensure_allowed_script_correct (home : AbsPath) (fs : FS) (sp et : String) :
    ((∃ e, ensure_allowed_script home fs sp et = .error e) ↔
      (condAbsolute sp = true ∨ condEscapes home fs sp = true ∨
       condBadSuffix fs sp = true ∨ condTypeMismatch fs sp et = true ∨
       condMissing fs sp = true ∨ condSkipped fs sp = true))
    ∧ (ensure_allowed_script home fs sp et = .ok (resolvedOf fs sp) ↔
      (condAbsolute sp = false ∧ condEscapes home fs sp = false ∧
       condBadSuffix fs sp = false ∧ condTypeMismatch fs sp et = false ∧
       condMissing fs sp = false ∧ condSkipped fs sp = false))
    ∧ (∀ r, ensure_allowed_script home fs sp et = .ok r → r = resolvedOf fs sp) := by
  unfold ensure_allowed_script
  cases h1 : condAbsolute sp <;>
  cases h2 : condEscapes home fs sp <;>
  cases h3 : condBadSuffix fs sp <;>
  cases h4 : condTypeMismatch fs sp et <;>
  cases h5 : condMissing fs sp <;>
  cases h6 : condSkipped fs sp <;>
  simp

/-- Witness for C1: an absolute path is rejected in the concrete
filesystem `fs0`. -/
theorem ensure_allowed_script_correct_witness :
    ∃ e, ensure_allowed_script home0 fs0 "/etc/passwd.py" "py" = .error e :=
  (ensure_allowed_script_correct home0 fs0 "/etc/passwd.py" "py").1.mpr
    (Or.inl (by decide))

/-! ## C2: `format_args` on its three payload shapes -/

/-- A dict entry contributes its flag, then its stringified value
unless the value is null. -/
theorem dict_entry_strings (es : List (String × JVal)) :
    es.flatMap (fun kv => ("--" ++ kv.1) :: dictVal kv.2) =
      es.flatMap (fun kv =>
        if kv.2 = .jnull then ["--" ++ kv.1]
        else ["--" ++ kv.1, pyStr kv.2]) := by
  induction es with
  | nil => rfl
  | cons kv rest ih =>
    obtain ⟨k, v⟩ := kv
    simp only [List.flatMap_cons, ih]
    cases v <;> rfl

/-- C2 counterexample.  A boolean mapping value does not emit only the
flag: `{"a": True}` formats to `["--a", "True"]`, not `["--a"]`
(only `None` values are omitted). -/
theorem format_args_bool_counterexample :
    format_args (.rdict [("a", .jbool true)]) = some ["--a", "True"] ∧
      some ["--a", "True"] ≠ some ["--a"] := ⟨rfl, by decide⟩

/-- C2 (amended).  `format_args` maps a sequence of scalars to their
string renderings in order; maps a mapping to, per entry in insertion
order, the flag `--name` followed by the stringified value, with only
null values emitting just the flag (booleans emit `True`/`False`); and
tokenizes a string respecting shell quoting. -/
theorem format_args_shapes (xs : List JVal) (es : List (String × JVal)) :
    format_args (.rlist xs) = some (xs.map pyStr)
    ∧ format_args (.rdict es) =
        some (es.flatMap (fun kv =>
          if kv.2 = .jnull then ["--" ++ kv.1]
          else ["--" ++ kv.1, pyStr kv.2]))
    ∧ format_args (.rdict [("a", .jint 1), ("b", .jnull)]) =
        some ["--a", "1", "--b"]
    ∧ format_args (.rstr "--a 1 --b 'two words'") =
        some ["--a", "1", "--b", "two words"] := by
  refine ⟨rfl, ?_, rfl, rfl⟩
  simp only [format_args, dict_entry_strings]

/-- Witness for C2: the amended dict clause at a concrete mapping with
an integer, a null and a boolean value. -/
theorem format_args_shapes_witness :
    format_args (.rdict [("a", .jint 1), ("b", .jnull), ("c", .jbool false)]) =
      some ["--a", "1", "--b", "--c", "False"] := by
  have h := (format_args_shapes [] [("a", .jint 1), ("b", .jnull), ("c", .jbool false)]).2.1
  simpa using h

/-! ## C3: the finalize step of `run_job` -/

/-- Once validation succeeded, `run_job` reaches its spawn/finalize
tail; this names the trace it produces. -/
theorem run_job_reaches_exec (home : AbsPath) (fs : FS) (logRoot now : String)
    (env : RunEnv) (job : Job) (args : List String) (scriptFull : AbsPath)
    (hargs : format_args job.argsField = some args)
    (hfound : (job.scriptId.isSome && (scriptRowOf env job).isNone) = false)
    (hpath : (scriptPathOf env job == "") = false)
    (hok : ensure_allowed_script home fs (scriptPathOf env job) (scriptTypeOf env job) =
      .ok scriptFull) :
    run_job home fs logRoot now env job =
      some (run_job_exec now env
        (logRoot ++ "/" ++ idStr (pyOr job.jobIdVal job.idVal)) args scriptFull) := by
  unfold run_job run_job_checked
  rw [hargs]
  simp [hfound, hpath, hok]

/-- C3.  For a job that passes validation: if the child runs to exit,
the final queue write has status `done` iff the exit code is zero, and
records `finished_at`, the exit code and both log paths; if the child
fails to start at all, the final write has status `error` with a null
`retcode`, and the failure message is appended to the stderr log file
before the tails are computed, so the recorded stderr tail shows it. -/
theorem run_job_finalize_correct (home : AbsPath) (fs : FS) (logRoot now : String)
    (env : RunEnv) (job : Job) (args : List String) (scriptFull : AbsPath)
    (hargs : format_args job.argsField = some args)
    (hfound : (job.scriptId.isSome && (scriptRowOf env job).isNone) = false)
    (hpath : (scriptPathOf env job == "") = false)
    (hok : ensure_allowed_script home fs (scriptPathOf env job) (scriptTypeOf env job) =
      .ok scriptFull) :
    ∃ t finalP, run_job home fs logRoot now env job = some t
      ∧ t.procInvoked = true
      ∧ t.updates.getLast? = some finalP
      ∧ finalP.finishedAt = some now
      ∧ finalP.retcode = some env.launch
      ∧ finalP.stdoutPath =
          some (logRoot ++ "/" ++ idStr (pyOr job.jobIdVal job.idVal) ++ "/stdout.log")
      ∧ finalP.stderrPath =
          some (logRoot ++ "/" ++ idStr (pyOr job.jobIdVal job.idVal) ++ "/stderr.log")
      ∧ (∀ rc : Int, env.launch = some rc →
          ((finalP.pstatus = some "done") ↔ rc = 0))
      ∧ (env.launch = none →
          finalP.pstatus = some "error"
          ∧ t.stderrFile = some ["Failed to start job: " ++ env.launchErrMsg]
          ∧ finalP.stderrTail =
              some (some ("Failed to start job: " ++ env.launchErrMsg))) := by
  have hrun := run_job_reaches_exec home fs logRoot now env job args scriptFull
    hargs hfound hpath hok
  set dir := logRoot ++ "/" ++ idStr (pyOr job.jobIdVal job.idVal) with hdir
  cases hl : env.launch with
  | some rc =>
    refine ⟨run_job_exec now env dir args scriptFull,
      finalPayload now (dir ++ "/stdout.log") (dir ++ "/stderr.log") (some rc)
        (get_tail (some env.childStdout)) (get_tail (some env.childStderr)),
      hrun, by simp [run_job_exec, hl], by simp [run_job_exec, hl],
      rfl, rfl, rfl, rfl, ?_, ?_⟩
    · intro rc' hrc'
      injection hrc' with h
      subst h
      by_cases h0 : rc = 0 <;> simp [finalPayload, statusOf, h0]
    · intro h
      exact absurd h (by simp)
  | none =>
    refine ⟨run_job_exec now env dir args scriptFull,
      finalPayload now (dir ++ "/stdout.log") (dir ++ "/stderr.log") none
        (get_tail (some ([] : List String)))
        (get_tail (some ["Failed to start job: " ++ env.launchErrMsg])),
      hrun, by simp [run_job_exec, hl], by simp [run_job_exec, hl],
      rfl, rfl, rfl, rfl, ?_, ?_⟩
    · intro rc' hrc'
      exact absurd hrc' (by simp)
    · intro _
      refine ⟨by simp [finalPayload, statusOf], by simp [run_job_exec, hl], ?_⟩
      show some (some (String.intercalate "\n" ["Failed to start job: " ++ env.launchErrMsg])) =
        some (some ("Failed to start job: " ++ env.launchErrMsg))
      rfl

/-- Witness for C3: for the concrete job `jobPy` whose child exits 0,
the final write is `done` with `retcode = 0` and the recorded paths. -/
theorem run_job_finalize_correct_witness :
    ∃ t finalP, run_job home0 fs0 "L" "T" envExit0 jobPy = some t
      ∧ t.procInvoked = true
      ∧ t.updates.getLast? = some finalP
      ∧ finalP.finishedAt = some "T"
      ∧ finalP.retcode = some envExit0.launch
      ∧ finalP.stdoutPath =
          some ("L" ++ "/" ++ idStr (pyOr jobPy.jobIdVal jobPy.idVal) ++ "/stdout.log")
      ∧ finalP.stderrPath =
          some ("L" ++ "/" ++ idStr (pyOr jobPy.jobIdVal jobPy.idVal) ++ "/stderr.log")
      ∧ (∀ rc : Int, envExit0.launch = some rc →
          ((finalP.pstatus = some "done") ↔ rc = 0))
      ∧ (envExit0.launch = none →
          finalP.pstatus = some "error"
          ∧ t.stderrFile = some ["Failed to start job: " ++ envExit0.launchErrMsg]
          ∧ finalP.stderrTail =
              some (some ("Failed to start job: " ++ envExit0.launchErrMsg))) :=
  run_job_finalize_correct home0 fs0 "L" "T" envExit0 jobPy [] ⟨["home", "u", "a.py"]⟩
    rfl rfl rfl rfl

/-! ## C4: the script-not-found branch -/

/-- C4 counterexample.  A job whose script reference matches no Script
record but which exposes no identifier under either candidate field is
dropped silently: no queue update is written and no notification is
sent, so the claimed error transition and notification do not happen
for every such job. -/
theorem run_job_script_not_found_counterexample :
    run_job home0 fs0 "L" "T" envNoScript jobNoId =
      some ⟨[], [], false, false, none, false, none, none⟩ := rfl

/-- C4 (amended).  For a job with a non-null script reference matching
no Script record, provided its identifier is present under one of the
two candidate fields (and its args payload tokenizes), `run_job`
transitions the job directly to `error` without invoking the Sandbox
Resolver or the Process Runner, and the notifier is invoked with
`error_message = "script not found"`. -/
theorem run_job_script_not_found (home : AbsPath) (fs : FS) (logRoot now : String)
    (env : RunEnv) (job : Job) (args : List String) (sid : String)
    (hargs : format_args job.argsField = some args)
    (hsid : job.scriptId = some sid)
    (hrow : env.script = none)
    (hid : (pyOr job.jobIdVal job.idVal).isSome = true) :
    ∃ t, run_job home fs logRoot now env job = some t
      ∧ (∀ p ∈ t.updates, p.pstatus = some "error")
      ∧ t.updates ≠ []
      ∧ t.emails = [⟨"error", none, some "script not found"⟩]
      ∧ t.ensureInvoked = false
      ∧ t.procInvoked = false := by
  unfold run_job run_job_checked
  rw [hargs]
  simp only [Option.map_some', scriptRowOf, hsid, hrow, Option.isSome_some,
    Bool.true_and, if_true, hid]
  refine ⟨_, rfl, ?_⟩
  simp [notFoundPayload]

/-- Witness for C4: the amended statement at a concrete job that does
carry an identifier. -/
theorem run_job_script_not_found_witness :
    ∃ t, run_job home0 fs0 "L" "T" envNoScript ⟨true, some "j9", none, some "s1", .rnone, none⟩ = some t
      ∧ (∀ p ∈ t.updates, p.pstatus = some "error")
      ∧ t.updates ≠ []
      ∧ t.emails = [⟨"error", none, some "script not found"⟩]
      ∧ t.ensureInvoked = false
      ∧ t.procInvoked = false :=
  run_job_script_not_found home0 fs0 "L" "T" envNoScript
    ⟨true, some "j9", none, some "s1", .rnone, none⟩ [] "s1" rfl rfl rfl rfl

/-! ## C5: the notebook ignored-args warning is truncated away -/

/-- C5 (code bug).  For the concrete notebook job `jobNb` with
non-empty args whose child exits 0 writing nothing: the job executes
via the notebook-conversion command with the args not forwarded, and
the ignored-args warning is written — but the subsequent open of the
stderr log with mode `w` truncates it, so after completion the stderr
log is empty and does not contain the warning line. -/
theorem run_job_ipynb_warning_truncated :
    (run_job home0 fs0 "L" "T" envNb jobNb).map Trace.ignoredArgsWarned = some true
    ∧ (run_job home0 fs0 "L" "T" envNb jobNb).map Trace.cmd =
        some (some ["jupyter", "nbconvert", "--to", "notebook", "--execute",
          "/home/u/nb.ipynb", "--output", "output.ipynb", "--output-dir", "L/j2"])
    ∧ (run_job home0 fs0 "L" "T" envNb jobNb).map Trace.stderrFile = some (some [])
    ∧ (run_job home0 fs0 "L" "T" envNb jobNb).map
        (fun t => (t.stderrFile.getD []).contains "Args are ignored for ipynb jobs.") =
          some false :=
  ⟨rfl, rfl, rfl, rfl⟩

/-! ## C6: `get_tail` -/

/-- C6 counterexample.  An existing, readable file with zero lines
yields the empty string, not null. -/
theorem get_tail_zero_lines_counterexample :
    get_tail (some []) = some "" ∧ (some "" : Option String) ≠ none :=
  ⟨rfl, by decide⟩

/-- C6 (amended).  `get_tail` is null exactly when the file does not
exist or could not be read; an existing file of at most 20 lines
(including zero lines) yields its full contents (the empty string for
an empty file); a longer file yields exactly its last 20 lines. -/
theorem get_tail_correct (lines : List String) :
    get_tail none = none
    ∧ (lines.length ≤ 20 →
        get_tail (some lines) = some (String.intercalate "\n" lines))
    ∧ (20 < lines.length →
        get_tail (some lines) =
          some (String.intercalate "\n" (lines.drop (lines.length - 20)))
        ∧ (lines.drop (lines.length - 20)).length = 20) := by
  refine ⟨rfl, ?_, ?_⟩
  · intro h
    simp [get_tail, h]
  · intro h
    refine ⟨?_, ?_⟩
    · simp only [get_tail]
      rw [if_neg (by omega)]
    · simp only [List.length_drop]
      omega

/-- Witness for C6: a 25-line file tails to exactly 20 lines. -/
theorem get_tail_correct_witness :
    get_tail (some (List.replicate 25 "x")) =
      some (String.intercalate "\n"
        ((List.replicate 25 "x").drop ((List.replicate 25 "x").length - 20)))
    ∧ ((List.replicate 25 "x").drop ((List.replicate 25 "x").length - 20)).length = 20 :=
  (get_tail_correct (List.replicate 25 "x")).2.2 (by decide)

/-! ## C7: isolation of the three top-level stages -/

/-- A `main` environment in which only the job fetch fails. -/
def envFetchFail : MainEnv := ⟨true, true, true, true, .error (), true, true⟩

/-- C7 counterexample.  When fetching the job fails, `main` returns 1
before session processing, so a job-stage failure does prevent the
session stage from running in the same invocation. -/
theorem main_fetch_failure_counterexample :
    (main_model envFetchFail).ranSession = false
    ∧ (main_model envFetchFail).exitCode = some 1 := ⟨rfl, rfl⟩

/-- C7 (amended).  After successful bootstrap, an inventory-sync
failure is isolated (the job and session stages still run, whatever
`syncOk`), and a session-stage failure is swallowed (exit 0); but a
job-fetch failure exits with code 1 before the session stage, and an
exception escaping `run_job` aborts the invocation before the session
stage. -/
theorem main_stage_isolation (e : MainEnv)
    (hc : e.configOk = true) (hcl : e.clientOk = true) (hu : e.userOk = true) :
    (e.fetchJob = .ok none →
      (main_model e).ranSession = true ∧ (main_model e).exitCode = some 0)
    ∧ (∀ j, e.fetchJob = .ok (some j) → e.runJobOk = true →
      (main_model e).ranSession = true ∧ (main_model e).exitCode = some 0)
    ∧ (∀ err, e.fetchJob = .error err →
      (main_model e).ranSession = false ∧ (main_model e).exitCode = some 1)
    ∧ (∀ j, e.fetchJob = .ok (some j) → e.runJobOk = false →
      (main_model e).ranSession = false ∧ (main_model e).exitCode = none)
    ∧ (main_model e).ranSync = true := by
  cases hf : e.fetchJob with
  | error err => simp [main_model, hc, hcl, hu, hf]
  | ok oj =>
    cases oj with
    | none => simp [main_model, hc, hcl, hu, hf]
    | some j => cases hr : e.runJobOk <;> simp [main_model, hc, hcl, hu, hf, hr]

/-- A `main` environment in which the sync and session stages both
fail but the job stage succeeds with no pending job. -/
def envIsolated : MainEnv := ⟨true, true, true, false, .ok none, true, false⟩

/-- Witness for C7: with sync and session both failing, the session
stage still runs and the invocation exits 0. -/
theorem main_stage_isolation_witness :
    (main_model envIsolated).ranSession = true
    ∧ (main_model envIsolated).exitCode = some 0 :=
  (main_stage_isolation envIsolated rfl rfl rfl).1 rfl

/-! ## C8: dual-column update retry -/

/-- C8.  For both `update_job` and `update_session`: the preferred
column is attempted first; a success there short-circuits; on failure
the alternate column is attempted and the overall outcome is exactly
the alternate attempt's outcome (so a second failure is re-raised);
the update is never silently dropped — a success means some attempted
column succeeded, and an error means every attempted column failed. -/
theorem update_retry_correct {E : Type} (outcome : String → Except E Unit)
    (useId : Bool) :
    ((update_job outcome useId).1.head? = some (if useId then "job_id" else "id")
      ∧ (outcome (if useId then "job_id" else "id") = .ok () →
          (update_job outcome useId).1 = [if useId then "job_id" else "id"]
          ∧ (update_job outcome useId).2 = .ok ())
      ∧ (∀ e, outcome (if useId then "job_id" else "id") = .error e →
          (update_job outcome useId).1 = jobColumns useId
          ∧ (update_job outcome useId).2 = outcome (if useId then "id" else "job_id"))
      ∧ ((update_job outcome useId).2 = .ok () →
          ∃ c ∈ (update_job outcome useId).1, outcome c = .ok ())
      ∧ (∀ e, (update_job outcome useId).2 = .error e →
          ∀ c ∈ (update_job outcome useId).1, ∃ e2, outcome c = .error e2))
    ∧ ((update_session outcome useId).1.head? = some (if useId then "session_id" else "id")
      ∧ (outcome (if useId then "session_id" else "id") = .ok () →
          (update_session outcome useId).1 = [if useId then "session_id" else "id"]
          ∧ (update_session outcome useId).2 = .ok ())
      ∧ (∀ e, outcome (if useId then "session_id" else "id") = .error e →
          (update_session outcome useId).1 = sessionColumns useId
          ∧ (update_session outcome useId).2 = outcome (if useId then "id" else "session_id"))
      ∧ ((update_session outcome useId).2 = .ok () →
          ∃ c ∈ (update_session outcome useId).1, outcome c = .ok ())
      ∧ (∀ e, (update_session outcome useId).2 = .error e →
          ∀ c ∈ (update_session outcome useId).1, ∃ e2, outcome c = .error e2)) := by
  cases useId <;>
  cases h1 : outcome "id" <;>
  cases h2 : outcome "job_id" <;>
  cases h3 : outcome "session_id" <;>
  simp [update_job, update_session, jobColumns, sessionColumns,
    tryColumnsAux, h1, h2, h3]

/-- A concrete queue in which only the physical column `job_id` exists. -/
def outcomeJobIdOnly : String → Except String Unit :=
  fun c => if c = "id" then .error "no column id" else .ok ()

/-- Witness for C8: with the preferred column `id` failing, both
columns are attempted in order and the update succeeds on `job_id`. -/
theorem update_retry_correct_witness :
    (update_job outcomeJobIdOnly false).1 = ["id", "job_id"]
    ∧ (update_job outcomeJobIdOnly false).2 = .ok () := by
  have h := ((update_retry_correct outcomeJobIdOnly false).1.2.2.1 "no column id" rfl)
  refine ⟨?_, ?_⟩
  · rw [h.1]
    rfl
  · rw [h.2]
    rfl

/-! ## C9: session port and token allocation -/

set_option maxRecDepth 4096 in
/-- A byte below 256 survives the hex-encode/decode round trip. -/
theorem hexPair_decode :
    ∀ b : Nat, b < 256 → hexVal (hexDigit (b / 16)) * 16 + hexVal (hexDigit (b % 16)) = b := by
  decide

/-- Decoding inverts `tokenHexChars` on valid byte lists. -/
theorem hexDecode_tokenHexChars (bytes : List Nat) (hb : ∀ b ∈ bytes, b < 256) :
    hexDecodeChars (tokenHexChars bytes) = bytes := by
  induction bytes with
  | nil => rfl
  | cons b bs ih =>
    simp only [tokenHexChars, hexDecodeChars]
    rw [hexPair_decode b (hb b (by simp)), ih (fun x hx => hb x (by simp [hx]))]

/-- `tokenHexChars` emits two characters per byte. -/
theorem tokenHexChars_length (bytes : List Nat) :
    (tokenHexChars bytes).length = 2 * bytes.length := by
  induction bytes with
  | nil => rfl
  | cons b bs ih =>
    simp only [tokenHexChars, List.length_cons, ih]
    omega

/-- C9.  The session port is the configured base plus the numeric user
identity modulo 100 — a deterministic function of the two — and
identities with distinct residues modulo 100 get distinct ports for
the same base.  The token encodes the sixteen drawn random bytes as 32
hex characters, and the encoding is lossless (so 16 uniformly random
bytes give the token 128 bits of entropy). -/
theorem session_allocation_correct (base u1 u2 : Nat) (bytes : List Nat)
    (hres : u1 % 100 ≠ u2 % 100) (hlen : bytes.length = 16)
    (hb : ∀ b ∈ bytes, b < 256) :
    computePort base u1 = base + u1 % 100
    ∧ computePort base u1 ≠ computePort base u2
    ∧ (tokenHex bytes).length = 32
    ∧ hexDecodeChars (tokenHex bytes).toList = bytes := by
  refine ⟨rfl, ?_, ?_, ?_⟩
  · unfold computePort
    omega
  · show (String.mk (tokenHexChars bytes)).length = 32
    rw [show (String.mk (tokenHexChars bytes)).length = (tokenHexChars bytes).length from rfl,
      tokenHexChars_length, hlen]
  · show hexDecodeChars (String.mk (tokenHexChars bytes)).toList = bytes
    exact hexDecode_tokenHexChars bytes hb

/-- Witness for C9: base port 8800, user identities 0 and 1, and the
all-zero byte draw. -/
theorem session_allocation_correct_witness :
    computePort 8800 0 = 8800 + 0 % 100
    ∧ computePort 8800 0 ≠ computePort 8800 1
    ∧ (tokenHex (List.replicate 16 0)).length = 32
    ∧ hexDecodeChars (tokenHex (List.replicate 16 0)).toList = List.replicate 16 0 :=
  session_allocation_correct 8800 0 1 (List.replicate 16 0)
    (by decide) (by decide) (by decide)

/-! ## C10: missing identifiers drop the job silently -/

/-- C10.  A job whose script reference matches no Script record and
whose identifier is absent under both candidate fields is returned
from without any queue update and without any notification: the trace
is empty. -/
theorem run_job_missing_id_no_writes (home : AbsPath) (fs : FS)
    (logRoot now : String) (env : RunEnv) (job : Job) (args : List String)
    (sid : String)
    (hargs : format_args job.argsField = some args)
    (hsid : job.scriptId = some sid)
    (hrow : env.script = none)
    (hj : job.jobIdVal = none) (hi : job.idVal = none) :
    run_job home fs logRoot now env job =
      some ⟨[], [], false, false, none, false, none, none⟩ := by
  unfold run_job run_job_checked
  rw [hargs]
  simp [scriptRowOf, hsid, hrow, pyOr, truthyStr, hj, hi]

/-- A second identifier-less job: the `job_id` key is present but null. -/
def jobNullId : Job := ⟨true, none, none, some "s2", .rnone, some "x.py"⟩

/-- Witness for C10: the concrete identifier-less job `jobNullId`
produces an empty trace. -/
theorem run_job_missing_id_no_writes_witness :
    run_job home0 fs0 "L" "T" envNoScript jobNullId =
      some ⟨[], [], false, false, none, false, none, none⟩ :=
  run_job_missing_id_no_writes home0 fs0 "L" "T" envNoScript jobNullId [] "s2"
    rfl rfl rfl rfl rfl
